import Mathlib

/-!
Shallow embedding of the card-prediction pipeline of this repository
(`optimized_prediction_model.py`, `streamlit_app.py`,
`prediction_model.py`) and proofs about it.

Numeric dataframe cells are modelled as rationals (`ℚ`); text cells as
`String`.  `np.clip(x, lo, hi)` is `clip lo hi x`; a Python substring
test `sub in s` is `contains_sub s sub`.  The one real-valued operation
of the optimized model that is not rational — `referee_factor ** 0.12`
on line 474 — is threaded through as an explicit parameter `refPow`,
so every statement below holds for every value of that power.
-/

/-- `np.clip(x, lo, hi)` from numpy: clamp `x` into `[lo, hi]`. -/
def clip (lo hi x : ℚ) : ℚ := min hi (max lo x)

/-- `str.upper()`: ASCII-wise uppercasing, written over the character
list so that it evaluates in the kernel (`String.toUpper` itself is
defined through `String.mapAux`, which does not reduce). -/
def str_upper (s : String) : String := ⟨s.data.map Char.toUpper⟩

/-- `str.lower()`, over the character list. -/
def str_lower (s : String) : String := ⟨s.data.map Char.toLower⟩

/-- Python's substring test `sub in s`. -/
def contains_sub (s sub : String) : Bool := decide (sub.toList <:+: s.toList)

/-- Python's `any(x in s for x in xs)`. -/
def contains_any (s : String) (xs : List String) : Bool :=
  xs.any (fun x => contains_sub s x)

/-- `get_player_zone` from `optimized_prediction_model.py` (lines 46-71):
zone `L`/`R`/`C` from the position code, falling back to the heatmap. -/
def get_player_zone (position heatmap : String) : String :=
  let pos := str_upper position
  let heat := str_lower heatmap
  if contains_any pos ["LW", "LB", "LWB", "LM"] then "L"
  else if contains_any pos ["RW", "RB", "RWB", "RM"] then "R"
  else if contains_any heat ["left", "sinistra"] then "L"
  else if contains_any heat ["right", "destra"] then "R"
  else "C"

/-- `get_player_role` from `optimized_prediction_model.py` (lines 74-90):
role `ATT`/`DEF`/`GK`/`MID` from the position code. -/
def get_player_role (position : String) : String :=
  let pos := str_upper position
  if contains_any pos ["ST", "CF", "FW", "W"] then "ATT"
  else if contains_any pos ["CB", "LB", "RB", "WB", "DF"] then "DEF"
  else if contains_any pos ["GK", "P"] then "GK"
  else "MID"

/-- `_calculate_zone_compatibility` from `optimized_prediction_model.py`
(lines 354-362). -/
def calculate_zone_compatibility (zone1 zone2 : String) : ℚ :=
  if (zone1 = "L" ∧ zone2 = "R") ∨ (zone1 = "R" ∧ zone2 = "L") then 1
  else if zone1 = "C" ∨ zone2 = "C" then 7/10
  else if zone1 = zone2 then 3/10
  else 1/2

/-- `_calculate_role_compatibility` from `optimized_prediction_model.py`
(lines 365-373). -/
def calculate_role_compatibility (role1 role2 : String) : ℚ :=
  if (role1 = "ATT" ∧ role2 = "DEF") ∨ (role1 = "DEF" ∧ role2 = "ATT") then 1
  else if role1 = "MID" ∨ role2 = "MID" then 4/5
  else if role1 = "DEF" ∧ role2 = "DEF" then 1/5
  else 3/5

/-! ## Data model

One `Row` models one player row of the concatenated dataframe of
`optimized_prediction_model.py` after `normalize_data` has coerced the
numeric columns; the derived columns start at their pre-computation
defaults and are filled in by the pipeline stages below. -/

structure Row where
  player : String
  squadra : String
  posizione : String
  heatmap : String
  falliFatti90 : ℚ
  falliSubiti90 : ℚ
  cartellini : ℚ
  media90PerCard : ℚ
  mediaFalliPerCard : ℚ
  ritardo : ℚ
  nineties : ℚ
  zona : String := "C"
  ruolo : String := "MID"
  historicalRisk : ℚ := 0
  foulAggression : ℚ := 0
  positionalRisk : ℚ := 0
  matchupBonus : ℚ := 0
  rischioFinale : ℚ := 0
deriving DecidableEq, Inhabited

/-- `normalize_data` lines 136-140: derive `Zona_Campo` and `Ruolo`. -/
def annotate_row (r : Row) : Row :=
  { r with zona := get_player_zone r.posizione r.heatmap
           ruolo := get_player_role r.posizione }

/-- `Card_Frequency_Score` (lines 167-171): `np.where(d > 0, clip(5/d,0,1), 0)`. -/
def card_frequency_score (media90PerCard : ℚ) : ℚ :=
  if media90PerCard > 0 then clip 0 1 (5 / media90PerCard) else 0

/-- `Impulsivity_Score` (lines 174-178): `np.where(d > 0, clip(4/d,0,1), 0)`. -/
def impulsivity_score (mediaFalliPerCard : ℚ) : ℚ :=
  if mediaFalliPerCard > 0 then clip 0 1 (4 / mediaFalliPerCard) else 0

/-- `Speed_Score` (line 181). -/
def speed_score (ritardo : ℚ) : ℚ := clip 0 1 (1 - ritardo / 90)

/-- `Volume_Score` (line 187) under rational division, where `x / 0 = 0`.
Line 187 has no guard on `avg_cards`: in floating point a zero
`avg_cards` makes `0/0` a NaN that `np.clip` does not confine.  That
path is modelled faithfully by `volume_score_float` below; this rational
version coincides with it exactly when `avgCards ≠ 0`. -/
def volume_score (cartellini avgCards : ℚ) : ℚ :=
  clip 0 1 (cartellini / (avgCards * 2))

/-- Mean of `Cartellini Gialli Totali` over players with positive
`90s Giocati Totali`, defaulting to 2.0 on an empty selection
(lines 184-185). -/
def avg_cards (rows : List Row) : ℚ :=
  let valid := rows.filter (fun r => decide (0 < r.nineties))
  if valid.length = 0 then 2 else (valid.map (·.cartellini)).sum / valid.length

/-- `_calculate_historical_risk` (lines 159-197) applied to one row. -/
def calculate_historical_risk (avgC : ℚ) (r : Row) : Row :=
  { r with historicalRisk :=
      card_frequency_score r.media90PerCard * (35/100) +
      impulsivity_score r.mediaFalliPerCard * (30/100) +
      speed_score r.ritardo * (20/100) +
      volume_score r.cartellini avgC * (15/100) }

/-- `_calculate_foul_aggression` (lines 200-213) applied to one row. -/
def calculate_foul_aggression (r : Row) : Row :=
  { r with foulAggression := clip 0 1 (r.falliFatti90 / (5/2)) }

/-- The `risk_map` of `_calculate_positional_risk` (lines 223-230),
with the `.fillna(0.5)` default for unmapped roles. -/
def positional_risk_map (ruolo : String) : ℚ :=
  if ruolo = "DEF" then 85/100
  else if ruolo = "MID" then 7/10
  else if ruolo = "ATT" then 1/2
  else if ruolo = "GK" then 1/10
  else 1/2

/-- `_calculate_positional_risk` applied to one row. -/
def calculate_positional_risk (r : Row) : Row :=
  { r with positionalRisk := positional_risk_map r.ruolo }

/-- Sort a list descending by a rational key.  Models
`sort_values(..., ascending=False)` / `nlargest`. -/
def sort_by_desc {α : Type} (key : α → ℚ) (l : List α) : List α :=
  List.insertionSort (fun a b => key b ≤ key a) l

/-! ## Matchup Finder (`_match_players`, `_identify_critical_matchups`) -/

/-- One entry of the `matchups` list built by `_match_players`
(lines 335-347). -/
structure Matchup where
  victimPlayer : String
  victimTeam : String
  victimZone : String
  victimRole : String
  aggressorPlayer : String
  aggressorTeam : String
  aggressorZone : String
  aggressorRole : String
  zoneCompatibility : ℚ
  roleCompatibility : ℚ
  riskScore : ℚ
deriving DecidableEq

/-- `tuple(sorted([victim['Player'], aggressor['Player']]))` (line 305):
the canonical form of the unordered pair of player names. -/
def pair_key (a b : String) : String × String :=
  if a ≤ b then (a, b) else (b, a)

/-- Matchup built for one victim/aggressor combination (lines 309-347). -/
def mk_matchup (victim aggressor : Row) (zc rc tc : ℚ) : Matchup :=
  { victimPlayer := victim.player
    victimTeam := victim.squadra
    victimZone := victim.zona
    victimRole := victim.ruolo
    aggressorPlayer := aggressor.player
    aggressorTeam := aggressor.squadra
    aggressorZone := aggressor.zona
    aggressorRole := aggressor.ruolo
    zoneCompatibility := zc
    roleCompatibility := rc
    riskScore :=
      (victim.falliSubiti90 * (35/100) + aggressor.falliFatti90 * (35/100) +
       aggressor.historicalRisk * (30/100)) * tc }

/-- Inner loop of `_match_players` (lines 296-349): one victim against
every aggressor, threading the `used_pairs` set and the accumulator. -/
def match_inner (victim : Row) (aggressors : List Row)
    (used : List (String × String)) (acc : List Matchup) :
    List (String × String) × List Matchup :=
  match aggressors with
  | [] => (used, acc)
  | a :: rest =>
    if victim.squadra = a.squadra then
      match_inner victim rest used acc
    else
      let key := pair_key victim.player a.player
      if key ∈ used then
        match_inner victim rest used acc
      else
        let zc := calculate_zone_compatibility victim.zona a.zona
        let rc := calculate_role_compatibility victim.ruolo a.ruolo
        let tc := zc * (7/10) + rc * (3/10)
        if tc < 1/2 then
          match_inner victim rest used acc
        else
          match_inner victim rest (key :: used)
            (acc ++ [mk_matchup victim a zc rc tc])

/-- Outer loop of `_match_players` (lines 292-351). -/
def match_outer (victims aggressors : List Row)
    (used : List (String × String)) (acc : List Matchup) : List Matchup :=
  match victims with
  | [] => acc
  | v :: rest =>
    let s := match_inner v aggressors used acc
    match_outer rest aggressors s.1 s.2

/-- `_match_players` (lines 280-351). -/
def match_players (victims aggressors : List Row) : List Matchup :=
  match_outer victims aggressors [] []

/-- `_identify_critical_matchups` (lines 235-277): candidate filtering,
the two mirrored `_match_players` passes, sort by risk, top 10. -/
def identify_critical_matchups (home_df away_df : List Row) : List Matchup :=
  let victims_home := (sort_by_desc (·.falliSubiti90)
    (home_df.filter (fun p =>
      (p.ruolo = "ATT" ∨ p.ruolo = "MID") ∧ 1 ≤ p.falliSubiti90))).take 8
  let aggressors_away := (sort_by_desc (·.falliFatti90)
    (away_df.filter (fun p =>
      (p.ruolo = "DEF" ∨ p.ruolo = "MID") ∧ 3/2 ≤ p.falliFatti90))).take 8
  let victims_away := (sort_by_desc (·.falliSubiti90)
    (away_df.filter (fun p =>
      (p.ruolo = "ATT" ∨ p.ruolo = "MID") ∧ 1 ≤ p.falliSubiti90))).take 8
  let aggressors_home := (sort_by_desc (·.falliFatti90)
    (home_df.filter (fun p =>
      (p.ruolo = "DEF" ∨ p.ruolo = "MID") ∧ 3/2 ≤ p.falliFatti90))).take 8
  let matchups := match_players victims_home aggressors_away ++
    match_players victims_away aggressors_home
  (sort_by_desc (·.riskScore) matchups).take 10

/-! ## Matchup bonus, referee factor, final risk (steps 4-8 of
`predict_match_cards`) -/

/-- One iteration of the bonus loop (lines 452-457): the aggressor takes
`max(old, risk_score * 0.5)`, then the victim takes
`max(old, risk_score * 0.3)`.  The dict with default 0 is modelled as a
function `String → ℚ`. -/
def bonus_step (acc : String → ℚ) (m : Matchup) : String → ℚ :=
  let acc1 := fun p =>
    if p = m.aggressorPlayer then max (acc p) (m.riskScore * (1/2)) else acc p
  fun p =>
    if p = m.victimPlayer then max (acc1 p) (m.riskScore * (3/10)) else acc1 p

/-- The `matchup_bonus` dict after the whole loop of lines 452-457. -/
def matchup_bonus_of (ms : List Matchup) : String → ℚ :=
  ms.foldl bonus_step (fun _ => 0)

/-- `all_players['Matchup_Bonus'].max()` (line 460); the fold from 0 agrees
with the pandas column max in every case the code distinguishes, because
untouched rows carry bonus 0. -/
def max_bonus (rows : List Row) : ℚ :=
  rows.foldl (fun b r => max b r.matchupBonus) 0

/-- Lines 459-463: write the per-player bonus onto the rows, then rescale
so the maximum bonus is 0.4 whenever the maximum is positive. -/
def apply_matchup_bonus (ms : List Matchup) (rows : List Row) : List Row :=
  let bf := matchup_bonus_of ms
  let rows1 := rows.map (fun r => { r with matchupBonus := bf r.player })
  let mb := max_bonus rows1
  if 0 < mb then
    rows1.map (fun r => { r with matchupBonus := r.matchupBonus / mb * (4/10) })
  else rows1

/-- `_calculate_referee_factor` (lines 376-382) for a nonempty referee
table. -/
def calculate_referee_factor (refCards : ℚ) : ℚ :=
  clip (7/10) (14/10) (refCards / (42/10))

/-- Lines 469-476: the weighted sum scaled by the referee power term and
clipped into `[0.01, 0.95]`.  `refPow` stands for the real number
`referee_factor ** 0.12` of line 474. -/
def calculate_rischio_finale (refPow : ℚ) (r : Row) : Row :=
  let base := r.historicalRisk * (35/100) + r.foulAggression * (25/100) +
    r.matchupBonus * (20/100) + r.positionalRisk * (8/100)
  { r with rischioFinale := clip (1/100) (95/100) (base * refPow) }

/-- `df['Squadra'].iloc[0]`; the Python code raises on an empty frame,
which is modelled by the junk value `""` and excluded by the theorems'
hypotheses. -/
def first_team (l : List Row) : String :=
  (l.head?.map (·.squadra)).getD ""

/-- Summand of `_calculate_team_aggression_factor` (lines 397-405); the
`replace([inf, -inf], 0)` of the per-90 card rate is the zero guard. -/
def team_aggression_score (players : List Row) : ℚ :=
  (players.map (·.falliFatti90)).sum * (1/2) +
  (players.map (fun r =>
    if r.nineties = 0 then 0 else r.cartellini / r.nineties)).sum * (1/2)

/-- `_calculate_team_aggression_factor` (lines 385-415): the signed and
absolute team-aggression asymmetry. -/
def calculate_team_aggression_factor (home_df away_df : List Row) : ℚ × ℚ :=
  let hp := home_df.filter (fun r => 5 ≤ r.nineties)
  let ap := away_df.filter (fun r => 5 ≤ r.nineties)
  if hp.length = 0 ∨ ap.length = 0 then (0, 0)
  else
    let hs := team_aggression_score hp
    let aws := team_aggression_score ap
    if hs + aws = 0 then (0, 0)
    else ((hs - aws) / (hs + aws), |(hs - aws) / (hs + aws)|)

/-- Steps 1-8 of `predict_match_cards` (lines 429-486): normalize,
score, find matchups, apply bonuses, compute the final risk and sort
descending.  The result is the `all_predictions` ranking. -/
def all_predictions (home_df away_df : List Row) (refPow : ℚ) : List Row :=
  let all0 := (home_df ++ away_df).map annotate_row
  let avgC := avg_cards all0
  let all1 := all0.map (fun r =>
    calculate_positional_risk (calculate_foul_aggression
      (calculate_historical_risk avgC r)))
  let htn := first_team home_df
  let atn := first_team away_df
  let ms := identify_critical_matchups
    (all1.filter (fun r => r.squadra = htn))
    (all1.filter (fun r => r.squadra = atn))
  let all2 := apply_matchup_bonus ms all1
  let all3 := all2.map (calculate_rischio_finale refPow)
  sort_by_desc (·.rischioFinale) all3

/-- Step 9 of `predict_match_cards` (lines 494-571): the forced 2-2/3-1
balancing over the sorted full ranking, including the final display
sort. -/
def balance_top_4 (allPlayers : List Row) (htn atn : String)
    (aggAbsDiff : ℚ) : List Row :=
  let home_risks := allPlayers.filter (fun r => r.squadra = htn)
  let away_risks := allPlayers.filter (fun r => r.squadra = atn)
  let top4init := allPlayers.take 4
  let ch := (top4init.filter (fun r => r.squadra = htn)).length
  let ca := (top4init.filter (fun r => r.squadra = atn)).length
  let threshold := 40/100 - aggAbsDiff * (15/100)
  let bal :=
    if (ch = 4 ∨ ca = 4) ∧ 2 ≤ home_risks.length ∧ 2 ≤ away_risks.length then
      home_risks.take 2 ++ away_risks.take 2
    else if (ch = 3 ∧ ca = 1) ∨ (ch = 1 ∧ ca = 3) then
      let dominant := if ch = 3 then home_risks else away_risks
      let minor := if ch = 3 then away_risks else home_risks
      if minor.length < 2 then top4init
      else
        let rd3 := (dominant.getD 2 default).rischioFinale
        let rm2 := (minor.getD 1 default).rischioFinale
        if rd3 > rm2 + threshold then top4init
        else home_risks.take 2 ++ away_risks.take 2
    else if ch = 2 ∧ ca = 2 then top4init
    else
      (sort_by_desc (·.rischioFinale)
        (home_risks.take (min 2 home_risks.length) ++
         away_risks.take (min 2 away_risks.length))).take 4
  sort_by_desc (·.rischioFinale) bal

/-- The full shortlist computation of `predict_match_cards`: ranking
followed by the dynamic-threshold balancing. -/
def predict_top_4 (home_df away_df : List Row) (refPow : ℚ) : List Row :=
  balance_top_4 (all_predictions home_df away_df refPow)
    (first_team home_df) (first_team away_df)
    (calculate_team_aggression_factor home_df away_df).2

/-- Referee severity classification of `predict_match_cards`
(lines 577-582). -/
def severity_level (refCards : ℚ) : String :=
  if refCards > 5 then "strict"
  else if refCards < 7/2 then "permissive"
  else "medium"

/-! ## `streamlit_app.py`: `calculate_risk` and the Top-5 tables -/

/-- One player row as read by `streamlit_app.py`, with the numeric
columns already coerced by the `pd.to_numeric(...) or default`
expressions of lines 22-27. -/
structure AppRow where
  player : String
  pos : String
  gialliTotali : ℚ
  ninetiesTotal : ℚ
  gialli2526 : ℚ
  nineties2526 : ℚ
  rossi : ℚ
  falli : ℚ
deriving DecidableEq

/-- `calculate_risk` from `streamlit_app.py` (lines 21-47). -/
def calculate_risk (row : AppRow) (is_home : Bool) (refYellow : ℚ) : ℚ :=
  let pos := str_upper row.pos
  if row.ninetiesTotal < 556/100 ∨ contains_sub pos "GK" then 0
  else
    let base_risk := if row.ninetiesTotal > 0 then
      row.gialliTotali / row.ninetiesTotal else 0
    let trend_risk := if row.nineties2526 > 0 then
      row.gialli2526 / row.nineties2526 else 0
    let risk := (base_risk * (7/10) + trend_risk * (3/10) + row.rossi * (1/2)) *
      (1 + (row.falli / row.ninetiesTotal) * (1/10))
    let pos_factor := if contains_sub pos "DF" then 5/4
      else if contains_sub pos "MF" then 23/20 else 1
    let home_factor : ℚ := if is_home then 6/5 else 4/5
    risk * pos_factor * home_factor * (refYellow / 3)

/-- The Top-5 tables of `streamlit_app.py` (lines 84-85): keep rows whose
`Pos` is `DF`/`MF`/`FW` and whose risk is strictly positive, then take
the 5 largest by risk. -/
def top_5_table (rows : List AppRow) (is_home : Bool) (refYellow : ℚ) :
    List AppRow :=
  (sort_by_desc (fun r => calculate_risk r is_home refYellow)
    (rows.filter (fun r =>
      (r.pos = "DF" ∨ r.pos = "MF" ∨ r.pos = "FW") ∧
      0 < calculate_risk r is_home refYellow))).take 5

/-! ## `prediction_model.py`: `calculate_derived_metrics` -/

/-- The derived metric columns computed in
`prediction_model.calculate_derived_metrics` for one player row. -/
structure DerivedMetrics where
  mediaFalliFatti90 : ℚ
  mediaFalliSubiti90 : ℚ
  media90PerCard : ℚ
  mediaFalliPerCard : ℚ
  ritardoCartellino : ℚ
deriving DecidableEq

/-- One raw spreadsheet row as used by `calculate_derived_metrics`. -/
structure RawRow where
  player : String
  falliFattiTot : ℚ
  falliSubitiTot : ℚ
  cartelliniTot : ℚ
  ninetiesTot : ℚ
deriving DecidableEq

/-- `calculate_derived_metrics` from `prediction_model.py` (lines 46-105)
for one row.  The `replace(0, np.nan)`/`replace(0, np.inf)` guards
followed by the final `replace([inf,-inf], nan).fillna(0)` make every
zero denominator yield 0.  `Ritardo_Cartellino_Minuti` (lines 76-80) is
drawn with `np.random.uniform`: `drawLow` is the value the RNG returned
from `uniform(20, 60)` and `drawHigh` the value from `uniform(60, 120)`;
the row keeps `drawLow` when its `Media_90s_per_Cartellino_Totale` is
below the column median `medianM90`, else `drawHigh`. -/
def calculate_derived_metrics (row : RawRow) (medianM90 drawLow drawHigh : ℚ) :
    DerivedMetrics :=
  let m90PerCard := if row.cartelliniTot = 0 then 0
    else row.ninetiesTot / row.cartelliniTot
  { mediaFalliFatti90 := if row.ninetiesTot = 0 then 0
      else row.falliFattiTot / row.ninetiesTot
    mediaFalliSubiti90 := if row.ninetiesTot = 0 then 0
      else row.falliSubitiTot / row.ninetiesTot
    media90PerCard := m90PerCard
    mediaFalliPerCard := if row.cartelliniTot = 0 then 0
      else row.falliFattiTot / row.cartelliniTot
    ritardoCartellino := if m90PerCard < medianM90 then drawLow else drawHigh }

/-! ## Spec-side refinement definitions and concrete inputs -/

/-- The unordered pair key of a matchup, `pair_key` applied to its two
player names. -/
def mkey (m : Matchup) : String × String :=
  pair_key m.victimPlayer m.aggressorPlayer

/-- Spec-side description of one pair's bonus contribution to a player
in the optimized model: the aggressor's share is 50% of the pair score,
the victim's 30% (lines 456-457); 0 for an untouched player.  Used to
compare the loop of lines 452-457 against its specification. -/
def pair_contribution (p : String) (m : Matchup) : ℚ :=
  if p = m.aggressorPlayer ∧ p = m.victimPlayer then
    max (m.riskScore * (1/2)) (m.riskScore * (3/10))
  else if p = m.aggressorPlayer then m.riskScore * (1/2)
  else if p = m.victimPlayer then m.riskScore * (3/10)
  else 0

/-- One iteration of the `player_duel_risks` loop of
`enhanced_prediction_model_v3.calculate_matchup_risk_advanced`
(lines 261-267): the aggressor takes `max(old, duel_risk)`, the victim
`max(old, duel_risk * 0.8)`.  The v3 matchup dict is modelled by the
same `Matchup` structure, with `riskScore` standing for `duel_risk`. -/
def bonus_step_v3 (acc : String → ℚ) (m : Matchup) : String → ℚ :=
  let acc1 := fun p =>
    if p = m.aggressorPlayer then max (acc p) m.riskScore else acc p
  fun p =>
    if p = m.victimPlayer then max (acc1 p) (m.riskScore * (8/10)) else acc1 p

/-- The v3 `player_duel_risks` dict after the whole loop. -/
def matchup_bonus_of_v3 (ms : List Matchup) : String → ℚ :=
  ms.foldl bonus_step_v3 (fun _ => 0)

/-- Spec-side per-pair contribution for the v3 loop: full pair score for
the aggressor, 80% for the victim. -/
def pair_contribution_v3 (p : String) (m : Matchup) : ℚ :=
  if p = m.aggressorPlayer ∧ p = m.victimPlayer then
    max m.riskScore (m.riskScore * (8/10))
  else if p = m.aggressorPlayer then m.riskScore
  else if p = m.victimPlayer then m.riskScore * (8/10)
  else 0

/-- A midfielder with plain statistics, used as concrete pipeline input. -/
def demo_home1 : Row :=
  { player := "H1", squadra := "Casa", posizione := "MF", heatmap := "central"
    falliFatti90 := 0, falliSubiti90 := 0, cartellini := 2, media90PerCard := 10
    mediaFalliPerCard := 5, ritardo := 45, nineties := 20 }

def demo_home2 : Row := { demo_home1 with player := "H2" }

def demo_away1 : Row := { demo_home1 with player := "A1", squadra := "Trasferta" }

/-- A player with only 3 ninety-minute equivalents played, below every
eligibility threshold the spec mentions. -/
def demo_away2 : Row :=
  { demo_home1 with player := "LowMin", squadra := "Trasferta", nineties := 3 }

/-- Victim row for the matchup-finder witness: left-flank attacker who
suffers many fouls. -/
def w3_victim : Row :=
  { player := "V", squadra := "Casa", posizione := "LW", heatmap := ""
    falliFatti90 := 0, falliSubiti90 := 2, cartellini := 0, media90PerCard := 0
    mediaFalliPerCard := 0, ritardo := 90, nineties := 20
    zona := "L", ruolo := "ATT" }

/-- Aggressor row for the matchup-finder witness: right-back who commits
many fouls, with historical risk 1. -/
def w3_aggressor : Row :=
  { player := "G", squadra := "Trasferta", posizione := "RB", heatmap := ""
    falliFatti90 := 2, falliSubiti90 := 0, cartellini := 0, media90PerCard := 0
    mediaFalliPerCard := 0, ritardo := 90, nineties := 20
    zona := "R", ruolo := "DEF", historicalRisk := 1 }

/-- The matchup `_match_players` emits for `w3_victim` vs `w3_aggressor`:
zone compatibility 1 (L vs R), role compatibility 1 (ATT vs DEF), total
compatibility 1, risk score `(2*0.35 + 2*0.35 + 1*0.30) * 1 = 1.7`. -/
def w3_matchup : Matchup :=
  { victimPlayer := "V", victimTeam := "Casa", victimZone := "L"
    victimRole := "ATT", aggressorPlayer := "G", aggressorTeam := "Trasferta"
    aggressorZone := "R", aggressorRole := "DEF", zoneCompatibility := 1
    roleCompatibility := 1, riskScore := 17/10 }

/-- A single matchup with pair score 1, for the bonus counterexample. -/
def c8_matchup : Matchup :=
  { victimPlayer := "V8", victimTeam := "Casa", victimZone := "L"
    victimRole := "ATT", aggressorPlayer := "G8", aggressorTeam := "Trasferta"
    aggressorZone := "R", aggressorRole := "DEF", zoneCompatibility := 1
    roleCompatibility := 1, riskScore := 1 }

/-- Rows of the C1 example: Team `A` risks 0.80, 0.75, 0.70 and team `B`
risks 0.60, 0.55, 0.50, already ranked descending. -/
def c1A1 : Row := { demo_home1 with player := "A1", squadra := "A", rischioFinale := 80/100 }

def c1A2 : Row := { demo_home1 with player := "A2", squadra := "A", rischioFinale := 75/100 }

def c1A3 : Row := { demo_home1 with player := "A3", squadra := "A", rischioFinale := 70/100 }

def c1B1 : Row := { demo_home1 with player := "B1", squadra := "B", rischioFinale := 60/100 }

def c1B2 : Row := { demo_home1 with player := "B2", squadra := "B", rischioFinale := 55/100 }

def c1B3 : Row := { demo_home1 with player := "B3", squadra := "B", rischioFinale := 50/100 }

/-- The ranked pool of the C1 example scenario. -/
def c1_ranked : List Row := [c1A1, c1A2, c1A3, c1B1, c1B2, c1B3]

/-- The shortlist the C1 example expects: `[A1, A2, B1, B2]`. -/
def c1_expected : List Row := [c1A1, c1A2, c1B1, c1B2]

/-- A defender row for the streamlit Top-5 table witness: 5 yellows in
10 ninety-minute equivalents, eligible and with positive risk. -/
def app_row_df : AppRow :=
  { player := "D1", pos := "DF", gialliTotali := 5, ninetiesTotal := 10
    gialli2526 := 0, nineties2526 := 1, rossi := 0, falli := 10 }

/-- A raw row for the derived-metrics counterexample: 5 cards in 10
ninety-minute equivalents, hence `Media_90s_per_Cartellino = 2`. -/
def c7_row : RawRow :=
  { player := "P7", falliFattiTot := 10, falliSubitiTot := 5
    cartelliniTot := 5, ninetiesTot := 10 }

/-! ## Float-faithful volume-score path

Line 187 divides by `avg_cards * 2` with no zero guard.  With numpy
floats (warnings suppressed on line 20): `0/0` is NaN, `c/0` for
`c ≠ 0` is `±inf`; `np.clip(NaN, lo, hi)` is NaN while `np.clip(±inf,
lo, hi)` is the corresponding bound; any weighted sum containing NaN is
NaN.  `none` stands for NaN below; `±inf` never survives the clip, so a
plain rational covers every other value. -/

/-- Line 187 with float semantics: `np.clip(cards / (avg_cards * 2), 0, 1)`.
For a zero denominator, `0/0` is NaN (`none`) and survives the clip;
`c/0` is `±inf` and clips to the bound. -/
def volume_score_float (cartellini avgCards : ℚ) : Option ℚ :=
  if avgCards * 2 = 0 then
    if cartellini = 0 then none
    else if 0 < cartellini then some 1
    else some 0
  else some (clip 0 1 (cartellini / (avgCards * 2)))

/-- `Historical_Risk` (lines 190-195) with the float-faithful volume
term: a NaN volume score makes the whole weighted sum NaN. -/
def historical_risk_float (avgC : ℚ) (r : Row) : Option ℚ :=
  (volume_score_float r.cartellini avgC).map (fun v =>
    card_frequency_score r.media90PerCard * (35/100) +
    impulsivity_score r.mediaFalliPerCard * (30/100) +
    speed_score r.ritardo * (20/100) + v * (15/100))

/-- `Rischio_Finale` (lines 469-476) with the float-faithful historical
term: a NaN historical risk keeps the weighted sum NaN, and
`np.clip(NaN, 0.01, 0.95)` on line 476 is still NaN. -/
def rischio_finale_float (refPow avgC : ℚ) (r : Row) : Option ℚ :=
  (historical_risk_float avgC r).map (fun h =>
    clip (1/100) (95/100)
      ((h * (35/100) + clip 0 1 (r.falliFatti90 / (5/2)) * (25/100) +
        r.matchupBonus * (20/100) + positional_risk_map r.ruolo * (8/100)) * refPow))

/-- A player with zero career yellow cards; in a pool of such players
`avg_cards` is 0 and line 187 divides 0 by 0. -/
def zero_cards_row : Row := { demo_home1 with cartellini := 0 }

/-! ## Helper lemmas -/

theorem clip_le_hi (lo hi x : ℚ) : clip lo hi x ≤ hi := min_le_left _ _

theorem lo_le_clip (lo hi x : ℚ) (h : lo ≤ hi) : lo ≤ clip lo hi x :=
  le_min h (le_max_left _ _)

theorem length_filter_eq_countP {α : Type} (p : α → Bool) (l : List α) :
    (l.filter p).length = l.countP p := by
  induction l with
  | nil => rfl
  | cons a t ih => by_cases h : p a <;> simp [List.filter_cons, List.countP_cons, h, ih]

theorem mem_sort_by_desc {α : Type} (key : α → ℚ) {l : List α} {x : α} :
    x ∈ sort_by_desc key l ↔ x ∈ l :=
  (List.perm_insertionSort _ _).mem_iff

theorem length_sort_by_desc {α : Type} (key : α → ℚ) (l : List α) :
    (sort_by_desc key l).length = l.length :=
  (List.perm_insertionSort _ _).length_eq

theorem countP_sort_by_desc {α : Type} (key : α → ℚ) (l : List α) (p : α → Bool) :
    (sort_by_desc key l).countP p = l.countP p :=
  (List.perm_insertionSort _ _).countP_eq p

/-- C6: when a historical-tendency denominator is zero, that sub-score is
0 rather than an error: a zero `Media 90s per Cartellino` gives frequency
score 0, a zero `Media Falli per Cartellino` gives impulsivity score 0,
and the combined historical risk reduces to the remaining two terms. -/
theorem claim_C6_zero_denominator (r : Row) (avgC : ℚ)
    (h90 : r.media90PerCard = 0) (hfl : r.mediaFalliPerCard = 0) :
    card_frequency_score r.media90PerCard = 0 ∧
    impulsivity_score r.mediaFalliPerCard = 0 ∧
    (calculate_historical_risk avgC r).historicalRisk =
      speed_score r.ritardo * (20/100) + volume_score r.cartellini avgC * (15/100) := by
  rw [h90, hfl]
  refine ⟨?_, ?_, ?_⟩
  · simp [card_frequency_score]
  · simp [impulsivity_score]
  · simp [calculate_historical_risk, h90, hfl, card_frequency_score, impulsivity_score]

/-- Witness for C6 at the concrete input 0. -/
theorem claim_C6_witness :
    card_frequency_score 0 = 0 ∧ impulsivity_score 0 = 0 := by
  have h := claim_C6_zero_denominator
    { demo_home1 with media90PerCard := 0, mediaFalliPerCard := 0 } 2 rfl rfl
  exact ⟨h.1, h.2.1⟩

theorem getD_zero_mem {α : Type} (l : List α) (d : α) (h : 0 < l.length) :
    l.getD 0 d ∈ l := by
  cases l with
  | nil => simp at h
  | cons a t => simp [List.getD]

theorem apply_matchup_bonus_players (ms : List Matchup) (rows : List Row) :
    (apply_matchup_bonus ms rows).map (·.player) = rows.map (·.player) := by
  simp only [apply_matchup_bonus]
  split_ifs <;> simp [List.map_map]

/-- The ranked output lists exactly the input players: scoring and
sorting neither add nor drop a row. -/
theorem players_all_predictions (home_df away_df : List Row) (refPow : ℚ) :
    ((all_predictions home_df away_df refPow).map (·.player)).Perm
      ((home_df ++ away_df).map (·.player)) := by
  simp only [all_predictions]
  refine ((List.perm_insertionSort _ _).map _).trans ?_
  rw [List.map_map]
  have h1 : ((fun r : Row => r.player) ∘ calculate_rischio_finale refPow) =
      (fun r : Row => r.player) := rfl
  rw [h1, apply_matchup_bonus_players]
  simp only [List.map_map]
  exact List.Perm.refl _

theorem length_all_predictions (home_df away_df : List Row) (refPow : ℚ) :
    (all_predictions home_df away_df refPow).length =
      home_df.length + away_df.length := by
  have h := (players_all_predictions home_df away_df refPow).length_eq
  simpa using h

/-- Counterexample for C5: a referee averaging exactly 3.5 yellow cards
per match is classified `"medium"`, not `"permissive"` — the permissive
branch requires the average to be strictly below 3.5. -/
theorem claim_C5_counterexample :
    severity_level (7/2) ≠ "permissive" ∧ severity_level (7/2) = "medium" := by
  have h : severity_level (7/2) = "medium" := by norm_num [severity_level]
  refine ⟨?_, h⟩
  rw [h]
  decide

/-- C5 as amended: with the optimized model's thresholds
(`strict` iff average > 5.0, `permissive` iff average < 3.5), an average
of 5.2 is `"strict"`, 4.2 is `"medium"`, 3.4 is `"permissive"`, and the
boundary value 3.5 is `"medium"`. -/
theorem claim_C5_severity_values :
    severity_level (26/5) = "strict" ∧ severity_level (21/5) = "medium" ∧
    severity_level (17/5) = "permissive" ∧ severity_level (7/2) = "medium" := by
  refine ⟨?_, ?_, ?_, ?_⟩ <;> norm_num [severity_level]

/-- Counterexample for C8: for a single pair with score 1, the bonus the
loop writes for the aggressor is 0.5, not the full pair score. -/
theorem claim_C8_counterexample :
    matchup_bonus_of [c8_matchup] c8_matchup.aggressorPlayer ≠ c8_matchup.riskScore ∧
    matchup_bonus_of [c8_matchup] c8_matchup.aggressorPlayer =
      c8_matchup.riskScore * (1/2) := by
  constructor <;> norm_num [matchup_bonus_of, bonus_step, c8_matchup]

theorem bonus_step_apply (f : String → ℚ) (m : Matchup) (p : String) (hf : 0 ≤ f p) :
    bonus_step f m p = max (f p) (pair_contribution p m) := by
  simp only [bonus_step, pair_contribution]
  by_cases h1 : p = m.aggressorPlayer <;> by_cases h2 : p = m.victimPlayer
  · simp only [if_pos h1, if_pos h2,
      if_pos (show p = m.aggressorPlayer ∧ p = m.victimPlayer from ⟨h1, h2⟩)]
    exact max_assoc _ _ _
  · simp only [if_pos h1, if_neg h2,
      if_neg (show ¬(p = m.aggressorPlayer ∧ p = m.victimPlayer) from fun hh => h2 hh.2)]
  · simp only [if_neg h1, if_pos h2,
      if_neg (show ¬(p = m.aggressorPlayer ∧ p = m.victimPlayer) from fun hh => h1 hh.1)]
  · simp only [if_neg h1, if_neg h2,
      if_neg (show ¬(p = m.aggressorPlayer ∧ p = m.victimPlayer) from fun hh => h1 hh.1)]
    exact (max_eq_left hf).symm

theorem bonus_step_le (f : String → ℚ) (m : Matchup) (p : String) :
    f p ≤ bonus_step f m p := by
  simp only [bonus_step]
  by_cases h1 : p = m.aggressorPlayer <;> by_cases h2 : p = m.victimPlayer
  · rw [if_pos h2, if_pos h1]
    exact le_trans (le_max_left _ _) (le_max_left _ _)
  · rw [if_neg h2, if_pos h1]
    exact le_max_left _ _
  · rw [if_pos h2, if_neg h1]
    exact le_max_left _ _
  · rw [if_neg h2, if_neg h1]

theorem matchup_bonus_fold (ms : List Matchup) (f : String → ℚ) (p : String)
    (hf : 0 ≤ f p) :
    ms.foldl bonus_step f p =
      ms.foldl (fun b m => max b (pair_contribution p m)) (f p) := by
  induction ms generalizing f with
  | nil => rfl
  | cons m t ih =>
    rw [List.foldl_cons, List.foldl_cons,
      ih (bonus_step f m) (le_trans hf (bonus_step_le f m p)),
      bonus_step_apply f m p hf]

theorem bonus_step_v3_apply (f : String → ℚ) (m : Matchup) (p : String)
    (hf : 0 ≤ f p) :
    bonus_step_v3 f m p = max (f p) (pair_contribution_v3 p m) := by
  simp only [bonus_step_v3, pair_contribution_v3]
  by_cases h1 : p = m.aggressorPlayer <;> by_cases h2 : p = m.victimPlayer
  · simp only [if_pos h1, if_pos h2,
      if_pos (show p = m.aggressorPlayer ∧ p = m.victimPlayer from ⟨h1, h2⟩)]
    exact max_assoc _ _ _
  · simp only [if_pos h1, if_neg h2,
      if_neg (show ¬(p = m.aggressorPlayer ∧ p = m.victimPlayer) from fun hh => h2 hh.2)]
  · simp only [if_neg h1, if_pos h2,
      if_neg (show ¬(p = m.aggressorPlayer ∧ p = m.victimPlayer) from fun hh => h1 hh.1)]
  · simp only [if_neg h1, if_neg h2,
      if_neg (show ¬(p = m.aggressorPlayer ∧ p = m.victimPlayer) from fun hh => h1 hh.1)]
    exact (max_eq_left hf).symm

theorem bonus_step_v3_le (f : String → ℚ) (m : Matchup) (p : String) :
    f p ≤ bonus_step_v3 f m p := by
  simp only [bonus_step_v3]
  by_cases h1 : p = m.aggressorPlayer <;> by_cases h2 : p = m.victimPlayer
  · rw [if_pos h2, if_pos h1]
    exact le_trans (le_max_left _ _) (le_max_left _ _)
  · rw [if_neg h2, if_pos h1]
    exact le_max_left _ _
  · rw [if_pos h2, if_neg h1]
    exact le_max_left _ _
  · rw [if_neg h2, if_neg h1]

theorem matchup_bonus_v3_fold (ms : List Matchup) (f : String → ℚ) (p : String)
    (hf : 0 ≤ f p) :
    ms.foldl bonus_step_v3 f p =
      ms.foldl (fun b m => max b (pair_contribution_v3 p m)) (f p) := by
  induction ms generalizing f with
  | nil => rfl
  | cons m t ih =>
    rw [List.foldl_cons, List.foldl_cons,
      ih (bonus_step_v3 f m) (le_trans hf (bonus_step_v3_le f m p)),
      bonus_step_v3_apply f m p hf]

/-- C8 as amended: in both bonus loops the value written for a player is
the running *maximum* of the per-pair contributions touching them, never
a sum.  In the optimized model the aggressor's contribution is 50% of the
pair score and the victim's 30% (60% of the aggressor's); in the v3
variant the aggressor receives the full pair score and the victim 80%. -/
theorem claim_C8_bonus_is_max :
    (∀ (ms : List Matchup) (p : String),
      matchup_bonus_of ms p =
        ms.foldl (fun b m => max b (pair_contribution p m)) 0) ∧
    (∀ (ms : List Matchup) (p : String),
      matchup_bonus_of_v3 ms p =
        ms.foldl (fun b m => max b (pair_contribution_v3 p m)) 0) :=
  ⟨fun ms p => matchup_bonus_fold ms (fun _ => 0) p le_rfl,
   fun ms p => matchup_bonus_v3_fold ms (fun _ => 0) p le_rfl⟩

theorem match_inner_cross (v : Row) (ags : List Row)
    (used : List (String × String)) (acc : List Matchup) :
    ∀ m ∈ (match_inner v ags used acc).2,
      m ∈ acc ∨ m.victimTeam ≠ m.aggressorTeam := by
  induction ags generalizing used acc with
  | nil =>
    intro m hm
    exact Or.inl hm
  | cons a rest ih =>
    intro m hm
    simp only [match_inner] at hm
    split_ifs at hm with h1 h2 h3
    · exact ih used acc m hm
    · exact ih used acc m hm
    · exact ih used acc m hm
    · rcases ih _ _ m hm with hacc | hne
      · rcases List.mem_append.mp hacc with h | h
        · exact Or.inl h
        · refine Or.inr ?_
          rw [List.mem_singleton.mp h]
          exact h1
      · exact Or.inr hne

theorem match_outer_cross (vs ags : List Row)
    (used : List (String × String)) (acc : List Matchup) :
    ∀ m ∈ match_outer vs ags used acc,
      m ∈ acc ∨ m.victimTeam ≠ m.aggressorTeam := by
  induction vs generalizing used acc with
  | nil =>
    intro m hm
    exact Or.inl hm
  | cons v rest ih =>
    intro m hm
    simp only [match_outer] at hm
    rcases ih _ _ m hm with hs | hne
    · exact match_inner_cross v ags used acc m hs
    · exact Or.inr hne

theorem match_players_cross (victims aggressors : List Row) :
    ∀ m ∈ match_players victims aggressors,
      m.victimTeam ≠ m.aggressorTeam := by
  intro m hm
  rcases match_outer_cross victims aggressors [] [] m hm with h | h
  · exact absurd h (List.not_mem_nil m)
  · exact h

/-- C3: every matchup the Matchup Finder emits pairs players of
different teams, for any input pools: the victim's team is never the
aggressor's team. -/
theorem claim_C3_cross_team (home_df away_df : List Row) (m : Matchup)
    (h : m ∈ identify_critical_matchups home_df away_df) :
    m.victimTeam ≠ m.aggressorTeam := by
  simp only [identify_critical_matchups] at h
  have h2 := List.take_subset 10 _ h
  rw [mem_sort_by_desc] at h2
  rcases List.mem_append.mp h2 with h3 | h3
  · exact match_players_cross _ _ m h3
  · exact match_players_cross _ _ m h3

theorem w3_eval :
    identify_critical_matchups [w3_victim] [w3_aggressor] = [w3_matchup] := by
  simp [identify_critical_matchups, w3_victim, w3_aggressor, sort_by_desc,
    List.insertionSort, List.orderedInsert, match_players, match_outer, match_inner,
    pair_key, calculate_zone_compatibility, calculate_role_compatibility, mk_matchup,
    w3_matchup, show (1:ℚ) ≤ 2 by norm_num, show (3:ℚ)/2 ≤ 2 by norm_num,
    show ¬((1:ℚ) * (7/10) + 1 * (3/10) < 1/2) by norm_num,
    show ¬((7:ℚ)/10 + 3/10 < 1/2) by norm_num]
  norm_num

/-- Witness for C3 on a concrete two-player pool. -/
theorem claim_C3_witness : w3_matchup.victimTeam ≠ w3_matchup.aggressorTeam :=
  claim_C3_cross_team [w3_victim] [w3_aggressor] w3_matchup
    (by rw [w3_eval]; exact List.mem_singleton.mpr rfl)

theorem match_inner_inv (v : Row) (ags : List Row)
    (used : List (String × String)) (acc : List Matchup)
    (hmem : ∀ m ∈ acc, mkey m ∈ used)
    (hpw : acc.Pairwise (fun m1 m2 => mkey m1 ≠ mkey m2)) :
    (∀ k ∈ used, k ∈ (match_inner v ags used acc).1) ∧
    (∀ m ∈ (match_inner v ags used acc).2, mkey m ∈ (match_inner v ags used acc).1) ∧
    (match_inner v ags used acc).2.Pairwise (fun m1 m2 => mkey m1 ≠ mkey m2) := by
  induction ags generalizing used acc with
  | nil => exact ⟨fun k hk => hk, hmem, hpw⟩
  | cons a rest ih =>
    simp only [match_inner]
    split_ifs with h1 h2 h3
    · exact ih used acc hmem hpw
    · exact ih used acc hmem hpw
    · exact ih used acc hmem hpw
    · have hmem2 : ∀ m ∈ acc ++ [mk_matchup v a
          (calculate_zone_compatibility v.zona a.zona)
          (calculate_role_compatibility v.ruolo a.ruolo)
          (calculate_zone_compatibility v.zona a.zona * (7/10) +
            calculate_role_compatibility v.ruolo a.ruolo * (3/10))],
          mkey m ∈ pair_key v.player a.player :: used := by
        intro m hm
        rcases List.mem_append.mp hm with h | h
        · exact List.mem_cons_of_mem _ (hmem m h)
        · rw [List.mem_singleton.mp h]
          exact List.mem_cons_self _ _
      have hpw2 : (acc ++ [mk_matchup v a
          (calculate_zone_compatibility v.zona a.zona)
          (calculate_role_compatibility v.ruolo a.ruolo)
          (calculate_zone_compatibility v.zona a.zona * (7/10) +
            calculate_role_compatibility v.ruolo a.ruolo * (3/10))]).Pairwise
          (fun m1 m2 => mkey m1 ≠ mkey m2) := by
        rw [List.pairwise_append]
        refine ⟨hpw, List.pairwise_singleton _ _, ?_⟩
        intro m1 hm1 m2 hm2
        rw [List.mem_singleton.mp hm2]
        intro heq
        apply h2
        have hin : mkey m1 ∈ used := hmem m1 hm1
        rw [heq] at hin
        exact hin
      rcases ih _ _ hmem2 hpw2 with ⟨i1, i2, i3⟩
      exact ⟨fun k hk => i1 k (List.mem_cons_of_mem _ hk), i2, i3⟩

theorem match_outer_inv (vs ags : List Row)
    (used : List (String × String)) (acc : List Matchup)
    (hmem : ∀ m ∈ acc, mkey m ∈ used)
    (hpw : acc.Pairwise (fun m1 m2 => mkey m1 ≠ mkey m2)) :
    (match_outer vs ags used acc).Pairwise (fun m1 m2 => mkey m1 ≠ mkey m2) := by
  induction vs generalizing used acc with
  | nil => exact hpw
  | cons v rest ih =>
    simp only [match_outer]
    rcases match_inner_inv v ags used acc hmem hpw with ⟨_, i2, i3⟩
    exact ih _ _ i2 i3

/-- C10: within one `_match_players` call, the unordered pair of player
names of an emitted matchup never repeats: the canonical keys of any two
distinct entries of the returned list differ. -/
theorem claim_C10_no_duplicate_pairs (victims aggressors : List Row) :
    (match_players victims aggressors).Pairwise
      (fun m1 m2 => mkey m1 ≠ mkey m2) :=
  match_outer_inv victims aggressors [] []
    (fun m hm => absurd hm (List.not_mem_nil m)) List.Pairwise.nil

theorem team_filter_partition (l : List Row) (htn atn : String) (hne : htn ≠ atn)
    (h : ∀ r ∈ l, r.squadra = htn ∨ r.squadra = atn) :
    (l.filter (fun r => r.squadra = htn)).length +
      (l.filter (fun r => r.squadra = atn)).length = l.length := by
  have hne2 : ¬(atn = htn) := fun hh => hne hh.symm
  induction l with
  | nil => rfl
  | cons a t ih =>
    have hmem : ∀ r ∈ t, r.squadra = htn ∨ r.squadra = atn :=
      fun r hr => h r (List.mem_cons_of_mem a hr)
    have iht := ih hmem
    rcases h a (List.mem_cons_self a t) with h1 | h1
    · have h2 : ¬(a.squadra = atn) := by
        rw [h1]
        exact hne
      simp [List.filter_cons, h1, h2, hne]
      omega
    · have h2 : ¬(a.squadra = htn) := by
        rw [h1]
        exact hne2
      simp [List.filter_cons, h1, h2, hne2]
      omega

theorem sorted22 (ranked : List Row) (htn atn : String) (hne : htn ≠ atn)
    (hh : 2 ≤ (ranked.filter (fun r => r.squadra = htn)).length)
    (ha : 2 ≤ (ranked.filter (fun r => r.squadra = atn)).length) :
    (sort_by_desc (fun x => x.rischioFinale)
      ((ranked.filter (fun r => r.squadra = htn)).take 2 ++
       (ranked.filter (fun r => r.squadra = atn)).take 2)).length = 4 ∧
    ((sort_by_desc (fun x => x.rischioFinale)
      ((ranked.filter (fun r => r.squadra = htn)).take 2 ++
       (ranked.filter (fun r => r.squadra = atn)).take 2)).filter
        (fun r => r.squadra = htn)).length = 2 ∧
    ((sort_by_desc (fun x => x.rischioFinale)
      ((ranked.filter (fun r => r.squadra = htn)).take 2 ++
       (ranked.filter (fun r => r.squadra = atn)).take 2)).filter
        (fun r => r.squadra = atn)).length = 2 := by
  have hne2 : ¬(atn = htn) := fun hh2 => hne hh2.symm
  have e1 : List.countP (fun r => decide (r.squadra = htn))
      ((ranked.filter (fun r => decide (r.squadra = htn))).take 2) =
      ((ranked.filter (fun r => decide (r.squadra = htn))).take 2).length := by
    rw [List.countP_eq_length]
    intro a hamem
    have h0 : a ∈ ranked.filter (fun r => decide (r.squadra = htn)) :=
      List.take_subset 2 _ hamem
    exact (List.mem_filter.mp h0).2
  have e2 : List.countP (fun r => decide (r.squadra = atn))
      ((ranked.filter (fun r => decide (r.squadra = atn))).take 2) =
      ((ranked.filter (fun r => decide (r.squadra = atn))).take 2).length := by
    rw [List.countP_eq_length]
    intro a hamem
    have h0 : a ∈ ranked.filter (fun r => decide (r.squadra = atn)) :=
      List.take_subset 2 _ hamem
    exact (List.mem_filter.mp h0).2
  have z1 : List.countP (fun r => decide (r.squadra = atn))
      ((ranked.filter (fun r => decide (r.squadra = htn))).take 2) = 0 := by
    rw [List.countP_eq_zero]
    intro a hamem
    have h0 : a ∈ ranked.filter (fun r => decide (r.squadra = htn)) :=
      List.take_subset 2 _ hamem
    have h3 := (List.mem_filter.mp h0).2
    simp only [decide_eq_true_eq] at h3
    simp [h3, hne]
  have z2 : List.countP (fun r => decide (r.squadra = htn))
      ((ranked.filter (fun r => decide (r.squadra = atn))).take 2) = 0 := by
    rw [List.countP_eq_zero]
    intro a hamem
    have h0 : a ∈ ranked.filter (fun r => decide (r.squadra = atn)) :=
      List.take_subset 2 _ hamem
    have h3 := (List.mem_filter.mp h0).2
    simp only [decide_eq_true_eq] at h3
    simp [h3, hne2]
  have lt1 : ((ranked.filter (fun r => decide (r.squadra = htn))).take 2).length = 2 := by
    rw [List.length_take]
    omega
  have lt2 : ((ranked.filter (fun r => decide (r.squadra = atn))).take 2).length = 2 := by
    rw [List.length_take]
    omega
  refine ⟨?_, ?_, ?_⟩
  · rw [length_sort_by_desc, List.length_append]
    omega
  · rw [length_filter_eq_countP, countP_sort_by_desc, List.countP_append, e1, z2]
    omega
  · rw [length_filter_eq_countP, countP_sort_by_desc, List.countP_append, e2, z1]
    omega

theorem balance_top_4_cases :
    ∀ (ranked : List Row) (htn atn : String) (δ : ℚ),
      htn ≠ atn →
      (∀ r ∈ ranked, r.squadra = htn ∨ r.squadra = atn) →
      2 ≤ (ranked.filter (fun r => r.squadra = htn)).length →
      2 ≤ (ranked.filter (fun r => r.squadra = atn)).length →
      (balance_top_4 ranked htn atn δ).length = 4 ∧
      (((balance_top_4 ranked htn atn δ).filter (fun r => r.squadra = htn)).length = 2 ∧
       ((balance_top_4 ranked htn atn δ).filter (fun r => r.squadra = atn)).length = 2 ∨
       ((balance_top_4 ranked htn atn δ).filter (fun r => r.squadra = htn)).length = 3 ∧
       ((balance_top_4 ranked htn atn δ).filter (fun r => r.squadra = atn)).length = 1 ∧
       ((ranked.filter (fun r => r.squadra = htn)).getD 2 default).rischioFinale >
         ((ranked.filter (fun r => r.squadra = atn)).getD 1 default).rischioFinale +
           (40/100 - δ * (15/100)) ∨
       ((balance_top_4 ranked htn atn δ).filter (fun r => r.squadra = htn)).length = 1 ∧
       ((balance_top_4 ranked htn atn δ).filter (fun r => r.squadra = atn)).length = 3 ∧
       ((ranked.filter (fun r => r.squadra = atn)).getD 2 default).rischioFinale >
         ((ranked.filter (fun r => r.squadra = htn)).getD 1 default).rischioFinale +
           (40/100 - δ * (15/100))) := by
  intro ranked htn atn δ hne hteam hh ha
  have hpart := team_filter_partition ranked htn atn hne hteam
  have ht4team : ∀ r ∈ ranked.take 4, r.squadra = htn ∨ r.squadra = atn :=
    fun r hr => hteam r (List.take_subset 4 ranked hr)
  have ht4part := team_filter_partition (ranked.take 4) htn atn hne ht4team
  have ht4len : (ranked.take 4).length = 4 := by
    rw [List.length_take]
    omega
  rw [ht4len] at ht4part
  have hs22 := sorted22 ranked htn atn hne hh ha
  simp only [balance_top_4]
  split_ifs with h1 h2 h3 h4 h5 h6 h7 h8
  · exact ⟨hs22.1, Or.inl ⟨hs22.2.1, hs22.2.2⟩⟩
  · omega
  · refine ⟨?_, Or.inr (Or.inl ⟨?_, ?_, h5⟩)⟩
    · rw [length_sort_by_desc, ht4len]
    · rw [length_filter_eq_countP, countP_sort_by_desc, ← length_filter_eq_countP]
      exact h3
    · rw [length_filter_eq_countP, countP_sort_by_desc, ← length_filter_eq_countP]
      omega
  · exact ⟨hs22.1, Or.inl ⟨hs22.2.1, hs22.2.2⟩⟩
  · omega
  · refine ⟨?_, Or.inr (Or.inr ⟨?_, ?_, h7⟩)⟩
    · rw [length_sort_by_desc, ht4len]
    · rw [length_filter_eq_countP, countP_sort_by_desc, ← length_filter_eq_countP]
      omega
    · rw [length_filter_eq_countP, countP_sort_by_desc, ← length_filter_eq_countP]
      omega
  · exact ⟨hs22.1, Or.inl ⟨hs22.2.1, hs22.2.2⟩⟩
  · refine ⟨?_, Or.inl ⟨?_, ?_⟩⟩
    · rw [length_sort_by_desc, ht4len]
    · rw [length_filter_eq_countP, countP_sort_by_desc, ← length_filter_eq_countP]
      exact h8.1
    · rw [length_filter_eq_countP, countP_sort_by_desc, ← length_filter_eq_countP]
      exact h8.2
  · exfalso
    have h1x : ¬((ranked.take 4 |>.filter (fun r => decide (r.squadra = htn))).length = 4 ∨
        (ranked.take 4 |>.filter (fun r => decide (r.squadra = atn))).length = 4) :=
      fun hc => h1 ⟨hc, hh, ha⟩
    omega

theorem balance_top_4_example : ∀ δ : ℚ, δ ≤ 1 →
    balance_top_4 c1_ranked "A" "B" δ = c1_expected := by
  intro δ hδ
  have hgap : ¬((70:ℚ)/100 > 55/100 + (40/100 - δ * (15/100))) := by
    push_neg
    nlinarith
  simp [balance_top_4, c1_ranked, c1_expected, c1A1, c1A2, c1A3, c1B1, c1B2, c1B3,
    demo_home1, sort_by_desc, List.insertionSort, List.orderedInsert, List.filter,
    List.take, List.getD, hgap,
    show ((55:ℚ)/100 ≤ 60/100) by norm_num,
    show ((60:ℚ)/100 ≤ 75/100) by norm_num,
    show ((75:ℚ)/100 ≤ 80/100) by norm_num,
    show ((60:ℚ)/100 ≤ 80/100) by norm_num,
    show ((55:ℚ)/100 ≤ 75/100) by norm_num,
    show ((55:ℚ)/100 ≤ 80/100) by norm_num]

/-- C1: whenever both teams have at least two players in the pool, the
balanced shortlist has exactly 4 entries and its split is 2-2, or 3-1
(resp. 1-3) only when the dominant team's 3rd-ranked final risk exceeds
the minority team's 2nd-ranked final risk by more than the dynamic
threshold `0.40 - aggression_abs_diff * 0.15`; a 4-0 split never occurs.
On the spec's example pool (team A risks 0.80/0.75/0.70, team B risks
0.60/0.55/0.50) the gap 0.70 - 0.55 = 0.15 is below the threshold for
every admissible asymmetry value, so the selector returns
`[A1, A2, B1, B2]`. -/
theorem claim_C1_balanced_selector :
    (∀ (ranked : List Row) (htn atn : String) (δ : ℚ),
      htn ≠ atn →
      (∀ r ∈ ranked, r.squadra = htn ∨ r.squadra = atn) →
      2 ≤ (ranked.filter (fun r => r.squadra = htn)).length →
      2 ≤ (ranked.filter (fun r => r.squadra = atn)).length →
      (balance_top_4 ranked htn atn δ).length = 4 ∧
      (((balance_top_4 ranked htn atn δ).filter (fun r => r.squadra = htn)).length = 2 ∧
       ((balance_top_4 ranked htn atn δ).filter (fun r => r.squadra = atn)).length = 2 ∨
       ((balance_top_4 ranked htn atn δ).filter (fun r => r.squadra = htn)).length = 3 ∧
       ((balance_top_4 ranked htn atn δ).filter (fun r => r.squadra = atn)).length = 1 ∧
       ((ranked.filter (fun r => r.squadra = htn)).getD 2 default).rischioFinale >
         ((ranked.filter (fun r => r.squadra = atn)).getD 1 default).rischioFinale +
           (40/100 - δ * (15/100)) ∨
       ((balance_top_4 ranked htn atn δ).filter (fun r => r.squadra = htn)).length = 1 ∧
       ((balance_top_4 ranked htn atn δ).filter (fun r => r.squadra = atn)).length = 3 ∧
       ((ranked.filter (fun r => r.squadra = atn)).getD 2 default).rischioFinale >
         ((ranked.filter (fun r => r.squadra = htn)).getD 1 default).rischioFinale +
           (40/100 - δ * (15/100)))) ∧
    (∀ δ : ℚ, δ ≤ 1 → balance_top_4 c1_ranked "A" "B" δ = c1_expected) :=
  ⟨balance_top_4_cases, balance_top_4_example⟩

/-- Witness for C1 on the example pool with neutral team aggression. -/
theorem claim_C1_witness :
    (balance_top_4 c1_ranked "A" "B" 0).length = 4 ∧
    (((balance_top_4 c1_ranked "A" "B" 0).filter (fun r => r.squadra = "A")).length = 2 ∧
     ((balance_top_4 c1_ranked "A" "B" 0).filter (fun r => r.squadra = "B")).length = 2 ∨
     ((balance_top_4 c1_ranked "A" "B" 0).filter (fun r => r.squadra = "A")).length = 3 ∧
     ((balance_top_4 c1_ranked "A" "B" 0).filter (fun r => r.squadra = "B")).length = 1 ∧
     ((c1_ranked.filter (fun r => r.squadra = "A")).getD 2 default).rischioFinale >
       ((c1_ranked.filter (fun r => r.squadra = "B")).getD 1 default).rischioFinale +
         (40/100 - 0 * (15/100)) ∨
     ((balance_top_4 c1_ranked "A" "B" 0).filter (fun r => r.squadra = "A")).length = 1 ∧
     ((balance_top_4 c1_ranked "A" "B" 0).filter (fun r => r.squadra = "B")).length = 3 ∧
     ((c1_ranked.filter (fun r => r.squadra = "B")).getD 2 default).rischioFinale >
       ((c1_ranked.filter (fun r => r.squadra = "A")).getD 1 default).rischioFinale +
         (40/100 - 0 * (15/100))) :=
  claim_C1_balanced_selector.1 c1_ranked "A" "B" 0 (by decide) (by decide)
    (by decide) (by decide)

/-- Counterexample for C4: in the optimized pipeline the player
`demo_away2` has only 3 ninety-minute equivalents — below every
eligibility threshold the spec names — yet their name appears in the
ranked `all_predictions` output: the optimized model applies no
minutes-eligibility filter before scoring and ranking. -/
theorem claim_C4_counterexample :
    demo_away2.nineties = 3 ∧
    demo_away2.player ∈ (all_predictions [demo_home1, demo_home2]
      [demo_away1, demo_away2] 1).map (·.player) := by
  refine ⟨rfl, ?_⟩
  rw [(players_all_predictions _ _ _).mem_iff]
  simp [demo_away2, demo_home1]

/-- C4 as amended: the optimized pipeline ranks every input player, with
no minutes filter (its ranked output names are exactly the pool's
names); the eligibility exclusion lives in `streamlit_app.calculate_risk`,
which returns risk 0 for any player with fewer than 5.56 ninety-minute
equivalents, so such a player can never appear in the Top-5 tables,
which keep only rows of strictly positive risk. -/
theorem claim_C4_eligibility :
    (∀ (home_df away_df : List Row) (refPow : ℚ) (p : Row),
      p ∈ home_df ++ away_df →
      p.player ∈ (all_predictions home_df away_df refPow).map (·.player)) ∧
    (∀ (rows : List AppRow) (is_home : Bool) (refY : ℚ) (r : AppRow),
      r ∈ top_5_table rows is_home refY → ¬(r.ninetiesTotal < 556/100)) := by
  constructor
  · intro home_df away_df refPow p hp
    rw [(players_all_predictions _ _ _).mem_iff]
    exact List.mem_map_of_mem _ hp
  · intro rows is_home refY r hr hlt
    have h2 := List.take_subset 5 _ hr
    rw [mem_sort_by_desc] at h2
    have h3 := (List.mem_filter.mp h2).2
    simp only [decide_eq_true_eq] at h3
    have h4 := h3.2
    have h5 : calculate_risk r is_home refY = 0 := by
      simp only [calculate_risk]
      rw [if_pos (Or.inl hlt)]
    rw [h5] at h4
    exact lt_irrefl 0 h4

theorem app_row_df_in_top5 : app_row_df ∈ top_5_table [app_row_df] true 3 := by
  have hrisk : 0 < calculate_risk app_row_df true 3 := by
    simp [calculate_risk, app_row_df,
      show ¬((10:ℚ) < 556/100) by norm_num,
      show contains_sub (str_upper "DF") "GK" = false from by decide,
      show contains_sub (str_upper "DF") "DF" = true from by decide]
    norm_num
  have hcond : (app_row_df.pos = "DF" ∨ app_row_df.pos = "MF" ∨ app_row_df.pos = "FW") ∧
      0 < calculate_risk app_row_df true 3 := ⟨Or.inl rfl, hrisk⟩
  unfold top_5_table
  rw [List.filter_cons, decide_eq_true hcond]
  simp only [List.filter_nil, if_true]
  rw [List.take_of_length_le (by rw [length_sort_by_desc]; simp)]
  rw [mem_sort_by_desc]
  exact List.mem_singleton.mpr rfl

/-- Witness for C4 on concrete pools: a scored home player's name is in
the optimized ranked output, and the eligible defender of the streamlit
Top-5 table is indeed above the 5.56 minutes threshold. -/
theorem claim_C4_witness :
    demo_home1.player ∈ (all_predictions [demo_home1, demo_home2]
      [demo_away1, demo_away2] 1).map (·.player) ∧
    ¬(app_row_df.ninetiesTotal < 556/100) :=
  ⟨claim_C4_eligibility.1 [demo_home1, demo_home2] [demo_away1, demo_away2] 1
      demo_home1 (by simp),
   claim_C4_eligibility.2 [app_row_df] true 3 app_row_df app_row_df_in_top5⟩

/-- Counterexample for C7: `calculate_derived_metrics` of
`prediction_model.py` draws `Ritardo_Cartellino_Minuti` with
`np.random.uniform(20, 60)` (lines 76-80), so two runs on the *same*
player row that receive different — equally possible — draws (20 and 30,
both inside `[20, 60]`) produce different derived metrics: the pipeline
built on it is not a pure function of the pool. -/
theorem claim_C7_counterexample :
    calculate_derived_metrics c7_row 5 20 70 ≠
      calculate_derived_metrics c7_row 5 30 70 ∧
    ((20:ℚ) ≤ 20 ∧ (20:ℚ) ≤ 60) ∧ ((20:ℚ) ≤ 30 ∧ (30:ℚ) ≤ 60) := by
  refine ⟨?_, by norm_num, by norm_num⟩
  intro he
  have h := congrArg DerivedMetrics.ritardoCartellino he
  simp only [calculate_derived_metrics, c7_row] at h
  rw [show (if (5:ℚ) = 0 then (0:ℚ) else 10/5) = 10/5 from if_neg (by norm_num)] at h
  rw [if_pos (show (10:ℚ)/5 < 5 by norm_num)] at h
  exact absurd h (by norm_num)

/-- C7 as amended: the optimized model's shortlist computation is a pure
function of (home pool, away pool, referee power term) — equal inputs
give an identical ordered shortlist on every recomputation.  (The
`prediction_model.py` variant is excluded: its derived-metrics stage is
randomized, see the counterexample.) -/
theorem claim_C7_pure_function :
    ∀ (h1 h2 a1 a2 : List Row) (p1 p2 : ℚ), h1 = h2 → a1 = a2 → p1 = p2 →
      predict_top_4 h1 a1 p1 = predict_top_4 h2 a2 p2 := by
  intro h1 h2 a1 a2 p1 p2 eh ea ep
  rw [eh, ea, ep]

/-- Witness for C7: recomputing on the identical concrete pool twice
returns the identical shortlist. -/
theorem claim_C7_witness :
    predict_top_4 [demo_home1, demo_home2] [demo_away1, demo_away2] 1 =
      predict_top_4 [demo_home1, demo_home2] [demo_away1, demo_away2] 1 :=
  claim_C7_pure_function _ _ _ _ _ _ rfl rfl rfl

/-- C9: the zone-compatibility and role-compatibility tables of the
optimized model are symmetric in their two arguments, for all strings. -/
theorem claim_C9_compat_symmetric :
    (∀ z1 z2 : String,
      calculate_zone_compatibility z1 z2 = calculate_zone_compatibility z2 z1) ∧
    (∀ r1 r2 : String,
      calculate_role_compatibility r1 r2 = calculate_role_compatibility r2 r1) := by
  constructor
  · intro z1 z2
    have c1 : ((z2 = "L" ∧ z1 = "R") ∨ (z2 = "R" ∧ z1 = "L")) ↔
        ((z1 = "L" ∧ z2 = "R") ∨ (z1 = "R" ∧ z2 = "L")) := by tauto
    have c2 : (z2 = "C" ∨ z1 = "C") ↔ (z1 = "C" ∨ z2 = "C") := or_comm
    have c3 : (z2 = z1) ↔ (z1 = z2) := eq_comm
    simp only [calculate_zone_compatibility, c1, c2, c3]
  · intro r1 r2
    have c1 : ((r2 = "ATT" ∧ r1 = "DEF") ∨ (r2 = "DEF" ∧ r1 = "ATT")) ↔
        ((r1 = "ATT" ∧ r2 = "DEF") ∨ (r1 = "DEF" ∧ r2 = "ATT")) := by tauto
    have c2 : (r2 = "MID" ∨ r1 = "MID") ↔ (r1 = "MID" ∨ r2 = "MID") := or_comm
    have c3 : (r2 = "DEF" ∧ r1 = "DEF") ↔ (r1 = "DEF" ∧ r2 = "DEF") := and_comm
    simp only [calculate_role_compatibility, c1, c2, c3]

/-- Counterexample for C2: in a pool whose counted players all have zero
career yellow cards, `avg_cards` is 0, line 187 computes `0/0` = NaN,
and `np.clip` leaves it NaN — so the zero-cards player's final risk is
NaN (`none`): not in `[0.01, 0.95]` and without the nonzero floor the
claim promises. -/
theorem claim_C2_nan_counterexample :
    avg_cards [zero_cards_row] = 0 ∧
    rischio_finale_float 1 (avg_cards [zero_cards_row]) zero_cards_row = none := by
  have h : avg_cards [zero_cards_row] = 0 := by
    simp [avg_cards, zero_cards_row, demo_home1, List.filter,
      show (0:ℚ) < 20 by norm_num]
  refine ⟨h, ?_⟩
  rw [h]
  simp [rischio_finale_float, historical_risk_float, volume_score_float,
    zero_cards_row, demo_home1]

/-- C2 as amended: away from the unguarded zero denominator the band
holds — whenever `avg_cards ≠ 0`, the float-faithful volume score agrees
with the rational one, and every player's final risk is a number in the
closed band `[0.01, 0.95]`, never 0 and never above 1.  Only the
all-zero-cards pool (`avg_cards = 0`) escapes, producing NaN as in the
counterexample. -/
theorem claim_C2_risk_band_guarded :
    (∀ (cartellini avgC : ℚ), avgC ≠ 0 →
      volume_score_float cartellini avgC = some (volume_score cartellini avgC)) ∧
    (∀ (refPow avgC : ℚ) (r : Row), avgC ≠ 0 →
      ∃ q, rischio_finale_float refPow avgC r = some q ∧
        1/100 ≤ q ∧ q ≤ 95/100) := by
  have hag : ∀ (cartellini avgC : ℚ), avgC ≠ 0 →
      volume_score_float cartellini avgC = some (volume_score cartellini avgC) := by
    intro c avgC h
    have h2 : avgC * 2 ≠ 0 := mul_ne_zero h two_ne_zero
    simp [volume_score_float, volume_score, h2]
  refine ⟨hag, ?_⟩
  intro refPow avgC r h
  simp only [rischio_finale_float, historical_risk_float, hag r.cartellini avgC h,
    Option.map_some']
  exact ⟨_, rfl, lo_le_clip _ _ _ (by norm_num), clip_le_hi _ _ _⟩

/-- Witness for C2 at a concrete nonzero card average. -/
theorem claim_C2_witness :
    ∃ q, rischio_finale_float 1 2 demo_home1 = some q ∧
      1/100 ≤ q ∧ q ≤ 95/100 :=
  claim_C2_risk_band_guarded.2 1 2 demo_home1 (by norm_num)
